import Mathlib

/-!
Verification development for the tetracubed lifecycle orchestration engine.

The Python source is shallowly embedded: each dynamic resource provider
(DataSync task execution, ECS service lifecycle, dynamic DNS) becomes a pure
Lean function from an environment describing the external cloud responses to
a result together with the list of external calls it performs, in order.
Property dictionaries with optional keys become structures with Option
fields, mirroring the dict.get defaulting of the source.
-/

namespace Tetracubed

/-- One acceptor row of the boto3 custom waiter configuration,
mirroring the entries of the dict built by create_waiter_config in
src/infrastructure/data/datasync_provider.py. -/
structure Acceptor where
  matcher : String
  argument : String
  expected : String
  accState : String
  deriving DecidableEq

/-- The custom waiter configuration shape used for DataSync task completion. -/
structure WaiterSpec where
  delay : Nat
  maxAttempts : Nat
  operation : String
  acceptors : List Acceptor
  deriving DecidableEq

/-- Statuses the waiter treats as terminal success. -/
def WaiterSpec.successStatuses (w : WaiterSpec) : List String :=
  (w.acceptors.filter (fun a => a.accState = "success")).map (fun a => a.expected)

/-- Statuses the waiter treats as terminal failure. -/
def WaiterSpec.failureStatuses (w : WaiterSpec) : List String :=
  (w.acceptors.filter (fun a => a.accState = "failure")).map (fun a => a.expected)

/-- Embedding of create_waiter_config from
src/infrastructure/data/datasync_provider.py lines 10 to 41. -/
def create_waiter_config : WaiterSpec :=
  { delay := 30
    maxAttempts := 60
    operation := "DescribeTaskExecution"
    acceptors :=
      [ { matcher := "path", argument := "Status", expected := "SUCCESS", accState := "success" }
      , { matcher := "path", argument := "Status", expected := "ERROR", accState := "failure" }
      , { matcher := "path", argument := "Status", expected := "CANCELED", accState := "failure" } ] }

/-- External calls the providers can make, recorded in order of execution. -/
inductive ExtCall where
  | startTaskExecution (taskArn : String)
  | waitTaskExecution (taskExecutionArn : String) (config : WaiterSpec)
  | updateService (cluster service : String) (desiredCount : Nat)
  | waitServicesStable (cluster service : String) (delay maxAttempts : Nat)
  | listTasks (cluster service : String)
  | describeTasks (cluster : String) (taskArns : List String)
  | describeNetworkInterface (eniId : String)
  | dnsUpdateRequest (hostname myip : String)
  deriving DecidableEq

/-- Python truthy-or on an optional string: a or b yields b when a is None
or the empty string. -/
def pyOrStr (a : Option String) (b : String) : String :=
  match a with
  | some s => if s = "" then b else s
  | none => b

/-- The props dict given to the DataSync execution provider.  Optional fields
mirror keys that may be absent from the dict (read with props.get). -/
structure DataSyncProps where
  task_arn : String
  task_name : Option String := none
  run_on_create : Option Bool := none
  run_on_delete : Option Bool := none
  deriving DecidableEq

/-- The outs dict of a DataSync execution create result.  The
task_execution_arn key is absent when the execution was skipped. -/
structure DataSyncOuts where
  task_execution_arn : Option String
  task_arn : String
  status : String
  deriving DecidableEq

/-- CreateResult returned by the DataSync execution provider. -/
structure DataSyncCreateResult where
  id_ : String
  outs : DataSyncOuts
  deriving DecidableEq

/-- External world as seen by the DataSync provider: the execution arn the
start call returns for a task arn, and whether waiting on that execution
ends in the success state (false covers failure and timeout, both of which
raise out of waiter.wait). -/
structure DataSyncEnv where
  startExecutionArn : String → String
  waitSucceeds : String → Bool

namespace DataSyncExecutionProvider

/-- Embedding of DataSyncExecutionProvider._execute_task: starts the task
execution, obtains the execution arn from the response, then waits for
completion with the custom waiter; any raise is wrapped into a DataSync
operation failed message. -/
def _execute_task (env : DataSyncEnv) (task_arn task_name operation : String) :
    Except String String × List ExtCall :=
  let task_execution_arn := env.startExecutionArn task_arn
  let calls := [ ExtCall.startTaskExecution task_arn
               , ExtCall.waitTaskExecution task_execution_arn create_waiter_config ]
  if env.waitSucceeds task_execution_arn then
    (Except.ok task_execution_arn, calls)
  else
    (Except.error ("DataSync " ++ operation ++ " failed for " ++ task_name), calls)

/-- Embedding of DataSyncExecutionProvider.create: when run_on_create
(default True) is false, returns a skipped result without any external call;
otherwise executes the task and returns its execution arn. -/
def create (env : DataSyncEnv) (props : DataSyncProps) :
    Except String DataSyncCreateResult × List ExtCall :=
  let task_arn := props.task_arn
  let task_name := props.task_name.getD "datasync-task"
  let run_on_create := props.run_on_create.getD true
  if run_on_create = false then
    (Except.ok
      { id_ := task_name ++ "-skipped"
        outs := { task_execution_arn := none, task_arn := task_arn, status := "SKIPPED" } }, [])
  else
    match _execute_task env task_arn task_name "CREATE" with
    | (Except.ok task_execution_arn, calls) =>
        (Except.ok
          { id_ := task_execution_arn
            outs := { task_execution_arn := some task_execution_arn
                      task_arn := task_arn
                      status := "SUCCESS" } }, calls)
    | (Except.error e, calls) => (Except.error e, calls)

/-- Embedding of DataSyncExecutionProvider.delete: when run_on_delete
(default False) is false, returns without any external call; otherwise
executes the task. -/
def delete (env : DataSyncEnv) (id_ : String) (props : DataSyncProps) :
    Except String Unit × List ExtCall :=
  let task_arn := props.task_arn
  let task_name := props.task_name.getD "datasync-task"
  let run_on_delete := props.run_on_delete.getD false
  if run_on_delete = false then
    (Except.ok (), [])
  else
    match _execute_task env task_arn task_name "DELETE" with
    | (Except.ok _, calls) => (Except.ok (), calls)
    | (Except.error e, calls) => (Except.error e, calls)

end DataSyncExecutionProvider

/-- Embedding of the full_args dict built by DataSyncExecution.__init__
(src/infrastructure/data/datasync_provider.py lines 145 to 162): it records
only task_arn and task_name; no run_on_create or run_on_delete key is placed
in the props given to the provider. -/
def DataSyncExecution.full_args (name : String) (task_arn : String)
    (task_name : Option String) : DataSyncProps :=
  { task_arn := task_arn
    task_name := some (pyOrStr task_name name)
    run_on_create := none
    run_on_delete := none }

/-- The keyword parameters accepted by DataSyncExecution.__init__ besides
self. -/
def DataSyncExecution.init_params : List String :=
  ["name", "task_arn", "task_name", "opts"]

/-- The keyword arguments main.py passes when constructing the efs-to-s3-auto
resource (src/main.py lines 100 to 107); name is passed positionally. -/
def mainEfsToS3Keywords : List String :=
  ["task_arn", "task_name", "run_on_create", "run_on_delete", "opts"]

/-- The keyword arguments main.py passes when constructing the s3-to-efs-auto
resource (src/main.py lines 67 to 74). -/
def mainS3ToEfsKeywords : List String :=
  ["task_arn", "task_name", "run_on_create", "run_on_delete", "opts"]

/-- A Python call raises TypeError when a keyword argument is not among the
callee parameters. -/
def callHasUnexpectedKeyword (accepted given : List String) : Bool :=
  given.any (fun k => !(accepted.contains k))

/-- The props dict that the efs-to-s3-auto resource hands to the provider,
per the full_args construction of DataSyncExecution.__init__ with the
arguments from src/main.py lines 100 to 107. -/
def efsToS3Props (taskArn : String) : DataSyncProps :=
  DataSyncExecution.full_args "efs-to-s3-auto" taskArn (some "EFS to S3 (save world data)")

/-- The props dict that the s3-to-efs-auto resource hands to the provider. -/
def s3ToEfsProps (taskArn : String) : DataSyncProps :=
  DataSyncExecution.full_args "s3-to-efs-auto" taskArn (some "S3 to EFS (load world data)")

/-- One entry of the details list of a task network attachment, mirroring
the dicts traversed by _get_public_ip.  The value key is read with get and
may be absent. -/
structure EniDetail where
  name : String
  value : Option String
  deriving DecidableEq

/-- A network attachment of an ECS task, as returned by describe_tasks. -/
structure TaskAttachment where
  details : List EniDetail
  deriving DecidableEq

/-- An ECS task description, reduced to the fields _get_public_ip reads. -/
structure EcsTask where
  attachments : List TaskAttachment
  deriving DecidableEq

/-- External world as seen by the ECS service manager provider: the arns
returned by list_tasks for RUNNING tasks, the task descriptions returned by
describe_tasks, the association attribute of each network interface (None
when the interface has no association; otherwise the attribute dict), and
whether the services_stable waiter reaches stability before exhausting its
attempts. -/
structure EcsEnv where
  taskArns : List String
  tasks : List EcsTask
  associationAttribute : String → Option (List (String × String))
  serviceStabilizes : Bool

/-- The outs dict of the ECS service manager create result. -/
structure EcsOuts where
  cluster_name : String
  service_name : String
  public_ip : String
  desired_count : Nat
  status : String
  deriving DecidableEq

/-- CreateResult returned by the ECS service manager provider. -/
structure EcsCreateResult where
  id_ : String
  outs : EcsOuts
  deriving DecidableEq

/-- The loop of _get_public_ip over the details of the first attachment:
the first detail named networkInterfaceId yields its value and the loop
breaks. -/
def findEniId : List EniDetail → Option String
  | [] => none
  | d :: rest => if d.name = "networkInterfaceId" then d.value else findEniId rest

namespace EcsServiceManagerProvider

/-- Embedding of EcsServiceManagerProvider._get_public_ip
(src/infrastructure/ecs/ecs_service_provider.py lines 17 to 75): lists the
RUNNING tasks of the service, describes them, takes the first task and its
first attachment, extracts the networkInterfaceId detail, and reads the
PublicIp key of the association attribute of that interface.  Each missing
piece raises, which the embedding returns as an error message. -/
def _get_public_ip (env : EcsEnv) (cluster_name service_name : String) :
    Except String String × List ExtCall :=
  let calls0 := [ExtCall.listTasks cluster_name service_name]
  if env.taskArns.isEmpty then
    (Except.error ("No running tasks found for service " ++ service_name), calls0)
  else
    let calls1 := calls0 ++ [ExtCall.describeTasks cluster_name env.taskArns]
    match env.tasks with
    | [] => (Except.error ("Could not describe task for service " ++ service_name), calls1)
    | task :: _ =>
      match task.attachments with
      | [] => (Except.error "No network attachments found on task", calls1)
      | attachment0 :: _ =>
        match findEniId attachment0.details with
        | none =>
            (Except.error "Could not find network interface ID in task details", calls1)
        | some eni_id =>
          if eni_id = "" then
            (Except.error "Could not find network interface ID in task details", calls1)
          else
            let calls2 := calls1 ++ [ExtCall.describeNetworkInterface eni_id]
            match env.associationAttribute eni_id with
            | none => (Except.error ("No public IP associated with ENI " ++ eni_id), calls2)
            | some assoc =>
              match assoc.lookup "PublicIp" with
              | none => (Except.error ("No public IP associated with ENI " ++ eni_id), calls2)
              | some public_ip => (Except.ok public_ip, calls2)

/-- Embedding of EcsServiceManagerProvider.create
(src/infrastructure/ecs/ecs_service_provider.py lines 77 to 130): sets the
desired count of the service to 1, waits for services_stable with delay 10
and maxAttempts 60, then resolves the public IP of the running task; any
raise is wrapped into an ECS service start failed message. -/
def create (env : EcsEnv) (cluster_name service_name : String) :
    Except String EcsCreateResult × List ExtCall :=
  let calls0 := [ ExtCall.updateService cluster_name service_name 1
                , ExtCall.waitServicesStable cluster_name service_name 10 60 ]
  if env.serviceStabilizes = false then
    (Except.error "ECS service start failed: waiter timed out", calls0)
  else
    match _get_public_ip env cluster_name service_name with
    | (Except.ok public_ip, calls) =>
        (Except.ok
          { id_ := cluster_name ++ "/" ++ service_name
            outs := { cluster_name := cluster_name
                      service_name := service_name
                      public_ip := public_ip
                      desired_count := 1
                      status := "RUNNING" } }, calls0 ++ calls)
    | (Except.error e, calls) =>
        (Except.error ("ECS service start failed: " ++ e), calls0 ++ calls)

/-- Embedding of EcsServiceManagerProvider.delete
(src/infrastructure/ecs/ecs_service_provider.py lines 132 to 169): sets the
desired count of the service to 0 and waits for services_stable with delay
10 and maxAttempts 60. -/
def delete (env : EcsEnv) (id_ : String) (cluster_name service_name : String) :
    Except String Unit × List ExtCall :=
  let calls0 := [ ExtCall.updateService cluster_name service_name 0
                , ExtCall.waitServicesStable cluster_name service_name 10 60 ]
  if env.serviceStabilizes = false then
    (Except.error "ECS service stop failed: waiter timed out", calls0)
  else
    (Except.ok (), calls0)

end EcsServiceManagerProvider

/-- An HTTP response as seen by the DNS provider: status code and body
text. -/
structure HttpResponse where
  statusCode : Nat
  text : String
  deriving DecidableEq

/-- External world as seen by the DNS provider: the HTTP response the
dynamic DNS endpoint returns for a given hostname and ip query. -/
structure DdnsEnv where
  response : String → String → HttpResponse

/-- The props dict given to the DNS provider.  Username and password come
from os.getenv and may be None. -/
structure DdnsProps where
  hostname : String
  ip_address : String
  username : Option String
  password : Option String
  deriving DecidableEq

/-- The outs dict of DNS create and update results. -/
structure DdnsOuts where
  hostname : String
  ip_address : String
  result : String
  status : String
  deriving DecidableEq

/-- CreateResult returned by the DNS provider. -/
structure DdnsCreateResult where
  id_ : String
  outs : DdnsOuts
  deriving DecidableEq

/-- UpdateResult returned by the DNS provider. -/
structure DdnsUpdateResult where
  outs : DdnsOuts
  deriving DecidableEq

/-- The part of the old props dict read by DynamicDnsProvider.update: the
value of old_props.get applied to the ip_address key, None when absent. -/
structure DdnsOldProps where
  ip_address : Option String
  deriving DecidableEq

/-- Python whitespace test used by str.strip, over the characters the
responses here can contain. -/
def pyCharWhitespace (c : Char) : Bool :=
  c = ' ' || c = '\t' || c = '\n' || c = '\r' || c = '\x0b' || c = '\x0c'

/-- Embedding of Python str.strip: removes whitespace from both ends,
computed on the character list of the string. -/
def pyStrip (s : String) : String :=
  ⟨((s.data.dropWhile pyCharWhitespace).reverse.dropWhile pyCharWhitespace).reverse⟩

/-- Embedding of Python str.startswith, computed on the character lists. -/
def pyStartswith (s pre : String) : Bool :=
  pre.data.isPrefixOf s.data

namespace DynamicDnsProvider

/-- Embedding of DynamicDnsProvider._update_dns
(src/infrastructure/dns/ddns_provider.py lines 19 to 59): performs the GET
request against the dynamic DNS endpoint; raise_for_status raises on a 4xx
or 5xx status code; otherwise the stripped response text is classified:
prefix good or nochg is success, anything else raises a DDNS update failed
error carrying the stripped response text. -/
def _update_dns (env : DdnsEnv) (hostname ip_address : String)
    (username password : Option String) : Except String String × List ExtCall :=
  let response := env.response hostname ip_address
  let calls := [ExtCall.dnsUpdateRequest hostname ip_address]
  if 400 ≤ response.statusCode ∧ response.statusCode < 600 then
    (Except.error "DDNS HTTP request failed: client or server error status", calls)
  else
    let result := pyStrip response.text
    if pyStartswith result "good" || pyStartswith result "nochg" then
      (Except.ok result, calls)
    else
      (Except.error ("DDNS update failed: " ++ result), calls)

/-- Embedding of DynamicDnsProvider.create
(src/infrastructure/dns/ddns_provider.py lines 61 to 78). -/
def create (env : DdnsEnv) (props : DdnsProps) :
    Except String DdnsCreateResult × List ExtCall :=
  match _update_dns env props.hostname props.ip_address props.username props.password with
  | (Except.ok result, calls) =>
      (Except.ok
        { id_ := props.hostname ++ "-" ++ props.ip_address
          outs := { hostname := props.hostname
                    ip_address := props.ip_address
                    result := result
                    status := "SUCCESS" } }, calls)
  | (Except.error e, calls) => (Except.error e, calls)

/-- Embedding of DynamicDnsProvider.update
(src/infrastructure/dns/ddns_provider.py lines 80 to 102): performs the DNS
update only when the requested ip differs from the last applied one read
from old_props; otherwise short-circuits to a nochg result with no external
call. -/
def update (env : DdnsEnv) (id_ : String) (old_props : DdnsOldProps)
    (new_props : DdnsProps) : Except String DdnsUpdateResult × List ExtCall :=
  let hostname := new_props.hostname
  let ip_address := new_props.ip_address
  if old_props.ip_address ≠ some ip_address then
    match _update_dns env hostname ip_address new_props.username new_props.password with
    | (Except.ok result, calls) =>
        (Except.ok
          { outs := { hostname := hostname
                      ip_address := ip_address
                      result := result
                      status := "SUCCESS" } }, calls)
    | (Except.error e, calls) => (Except.error e, calls)
  else
    (Except.ok
      { outs := { hostname := hostname
                  ip_address := ip_address
                  result := "nochg (no update needed)"
                  status := "SUCCESS" } }, [])

/-- Embedding of DynamicDnsProvider.delete
(src/infrastructure/dns/ddns_provider.py lines 104 to 108): the body is a
pass statement, so no external call is made. -/
def delete (id_ : String) (props : DdnsProps) : Unit × List ExtCall :=
  ((), [])

end DynamicDnsProvider

/-- Interpretation of the external calls on the state of the dynamic DNS
record, a map from hostname to last applied address: a request to the
update endpoint repoints the hostname; no other call touches DNS state. -/
def applyDnsCall (st : List (String × String)) : ExtCall → List (String × String)
  | ExtCall.dnsUpdateRequest h ip => (h, ip) :: st.filter (fun p => p.1 ≠ h)
  | _ => st

/-- Folding the DNS record interpretation over a call trace. -/
def applyDnsCalls (st : List (String × String)) (calls : List ExtCall) :
    List (String × String) :=
  calls.foldl applyDnsCall st

/-- The resources registered by create_pulumi_program in src/main.py,
together with the component resources inside DataSyncComponent,
EcsComponent and EfsComponent that connect them. -/
inductive Res where
  | s3Location
  | efsLocation
  | efsToS3Task
  | s3ToEfsTask
  | efsFileSystem
  | ecsCluster
  | ecsService
  | s3ToEfsExecutionRes
  | ecsServiceManagerRes
  | ddnsUpdateRes
  | efsToS3ExecutionRes
  deriving DecidableEq

/-- The declared dependencies of each resource: depends_on lists and input
outputs, as written in src/main.py lines 67 to 107 and in the component
constructors (src/infrastructure/data/datasync.py,
src/infrastructure/ecs/ecs.py).  deps r lists the resources r depends
on. -/
def deps : Res → List Res
  | Res.s3Location => []
  | Res.efsLocation => [Res.efsFileSystem]
  | Res.efsToS3Task => [Res.s3Location, Res.efsLocation]
  | Res.s3ToEfsTask => [Res.s3Location, Res.efsLocation]
  | Res.efsFileSystem => []
  | Res.ecsCluster => []
  | Res.ecsService => [Res.ecsCluster, Res.efsFileSystem]
  | Res.s3ToEfsExecutionRes => [Res.s3ToEfsTask]
  | Res.ecsServiceManagerRes => [Res.ecsCluster, Res.ecsService, Res.s3ToEfsExecutionRes]
  | Res.ddnsUpdateRes => [Res.ecsServiceManagerRes]
  | Res.efsToS3ExecutionRes => [Res.efsToS3Task]

/-- All resources of the program. -/
def allRes : List Res :=
  [ Res.s3Location, Res.efsLocation, Res.efsToS3Task, Res.s3ToEfsTask
  , Res.efsFileSystem, Res.ecsCluster, Res.ecsService
  , Res.s3ToEfsExecutionRes, Res.ecsServiceManagerRes, Res.ddnsUpdateRes
  , Res.efsToS3ExecutionRes ]

/-- Fuelled reachability along dependency edges. -/
def reachB : Nat → Res → Res → Bool
  | 0, _, _ => false
  | fuel + 1, a, b => (deps a).contains b || (deps a).any (fun c => reachB fuel c b)

/-- b is reachable from a along declared dependency edges (a transitively
depends on b).  The fuel exceeds the number of resources, so this is full
reachability. -/
def reachable (a b : Res) : Bool :=
  reachB 12 a b

/-- Index of a resource in a list (length of the list when absent). -/
def idxIn : List Res → Res → Nat
  | [], _ => 0
  | x :: xs, r => if x = r then 0 else idxIn xs r + 1

/-- Modelled from the spec: the deletion scheduling rule of the external
infra-as-code engine, which the spec states as step execution order being a
topological sort consistent with declared dependencies, deletion running in
reverse.  A destroy order is valid when it mentions every resource exactly
once and deletes every resource before each of its dependencies. -/
def destroyOrderValidB (order : List Res) : Bool :=
  (order.length = allRes.length) &&
  (allRes.all (fun r => order.contains r)) &&
  (allRes.all (fun r => (deps r).all (fun d => idxIn order r < idxIn order d)))

/-- A concrete destroy order that deletes the efs-to-s3 backup execution
resource before the ECS service manager resource. -/
def backupFirstDestroyOrder : List Res :=
  [ Res.efsToS3ExecutionRes, Res.ddnsUpdateRes, Res.ecsServiceManagerRes
  , Res.s3ToEfsExecutionRes, Res.s3ToEfsTask, Res.efsToS3Task
  , Res.efsLocation, Res.s3Location, Res.ecsService, Res.ecsCluster
  , Res.efsFileSystem ]

/-- The full environment of one orchestration run: one external world per
provider, plus the configuration values read in create_pulumi_program. -/
structure ProvisionEnv where
  dsEnv : DataSyncEnv
  ecsEnv : EcsEnv
  ddnsEnv : DdnsEnv
  s3ToEfsTaskArn : String
  efsToS3TaskArn : String
  clusterName : String
  serviceName : String
  hostnameVar : Option String
  noipUsername : Option String
  noipPassword : Option String

/-- The hostname input of the ddns-update resource: os.getenv with the
default from src/main.py line 89. -/
def programHostname (env : ProvisionEnv) : String :=
  env.hostnameVar.getD "tetranet.ddns.net"

/-- The dependency-ordered execution on provision of the chain feeding the
DNS step, as declared in create_pulumi_program (src/main.py lines 67 to
96): the s3-to-efs execution runs first, the ECS service manager create
runs after it, and the ddns-update create runs after that with its
ip_address input wired to the public_ip output of the service manager.  A
failing step aborts the remaining steps. -/
def provisionRun (env : ProvisionEnv) : Except String (String × String) × List ExtCall :=
  match DataSyncExecutionProvider.create env.dsEnv (s3ToEfsProps env.s3ToEfsTaskArn) with
  | (Except.error e, c1) => (Except.error e, c1)
  | (Except.ok _, c1) =>
    match EcsServiceManagerProvider.create env.ecsEnv env.clusterName env.serviceName with
    | (Except.error e, c2) => (Except.error e, c1 ++ c2)
    | (Except.ok r, c2) =>
      let ddnsProps : DdnsProps :=
        { hostname := programHostname env
          ip_address := r.outs.public_ip
          username := env.noipUsername
          password := env.noipPassword }
      match DynamicDnsProvider.create env.ddnsEnv ddnsProps with
      | (Except.error e, c3) => (Except.error e, c1 ++ c2 ++ c3)
      | (Except.ok cr, c3) => (Except.ok (r.outs.public_ip, cr.outs.hostname), c1 ++ c2 ++ c3)

/-! Concrete environments used by the witnesses. -/

/-- A DataSync world where starting succeeds and every wait reaches the
success status. -/
def dsEnvW : DataSyncEnv :=
  { startExecutionArn := fun arn => arn ++ "-execution-0"
    waitSucceeds := fun _ => true }

/-- A task with one attachment carrying a resolvable network interface. -/
def taskW : EcsTask :=
  { attachments := [ { details := [ { name := "networkInterfaceId", value := some "eni-1" } ] } ] }

/-- An ECS world with one running task whose interface has a public IP. -/
def ecsEnvW : EcsEnv :=
  { taskArns := ["task-arn-1"]
    tasks := [taskW]
    associationAttribute := fun eniId =>
      if eniId = "eni-1" then some [("PublicIp", "203.0.113.7")] else none
    serviceStabilizes := true }

/-- An ECS world that is stable with zero running tasks. -/
def ecsEnvNoTasks : EcsEnv :=
  { taskArns := []
    tasks := []
    associationAttribute := fun _ => none
    serviceStabilizes := true }

/-- An ECS world whose task has no network attachment. -/
def ecsEnvNoAttach : EcsEnv :=
  { taskArns := ["task-arn-1"]
    tasks := [{ attachments := [] }]
    associationAttribute := fun _ => none
    serviceStabilizes := true }

/-- An ECS world whose attachment has no networkInterfaceId detail. -/
def ecsEnvNoEni : EcsEnv :=
  { taskArns := ["task-arn-1"]
    tasks := [{ attachments := [ { details := [ { name := "subnetId", value := some "subnet-1" } ] } ] }]
    associationAttribute := fun _ => none
    serviceStabilizes := true }

/-- An ECS world whose interface has no association. -/
def ecsEnvNoAssoc : EcsEnv :=
  { taskArns := ["task-arn-1"]
    tasks := [taskW]
    associationAttribute := fun _ => none
    serviceStabilizes := true }

/-- An ECS world with two running tasks, both resolvable. -/
def ecsEnvTwoTasks : EcsEnv :=
  { taskArns := ["task-arn-1", "task-arn-2"]
    tasks := [taskW, taskW]
    associationAttribute := fun eniId =>
      if eniId = "eni-1" then some [("PublicIp", "203.0.113.7")] else none
    serviceStabilizes := true }

/-- A DNS endpoint answering good followed by the requested ip. -/
def ddnsEnvGood : DdnsEnv :=
  { response := fun _ ip => { statusCode := 200, text := "good " ++ ip } }

/-- A DNS endpoint answering good with a leading space in the body. -/
def ddnsEnvPadded : DdnsEnv :=
  { response := fun _ _ => { statusCode := 200, text := " good 203.0.113.7" } }

/-- A full provision environment where every step succeeds. -/
def provEnvW : ProvisionEnv :=
  { dsEnv := dsEnvW
    ecsEnv := ecsEnvW
    ddnsEnv := ddnsEnvGood
    s3ToEfsTaskArn := "arn-s3-to-efs"
    efsToS3TaskArn := "arn-efs-to-s3"
    clusterName := "cluster"
    serviceName := "svc"
    hostnameVar := some "example.ddns.net"
    noipUsername := some "user"
    noipPassword := some "pass" }

/-- Props with both direction flags present and false. -/
def propsFlagsFalse : DataSyncProps :=
  { task_arn := "arn-a", task_name := some "job"
    run_on_create := some false, run_on_delete := some false }

/-- Props with both direction flags present and true. -/
def propsFlagsTrue : DataSyncProps :=
  { task_arn := "arn-a", task_name := some "job"
    run_on_create := some true, run_on_delete := some true }

/-! Helper lemmas about call traces. -/

/-- The trace of _execute_task is always the start call followed by the
wait call on the returned execution arn, with the custom waiter config. -/
theorem dsExecuteTask_trace (env : DataSyncEnv) (task_arn task_name operation : String) :
    (DataSyncExecutionProvider._execute_task env task_arn task_name operation).2 =
      [ ExtCall.startTaskExecution task_arn
      , ExtCall.waitTaskExecution (env.startExecutionArn task_arn) create_waiter_config ] := by
  unfold DataSyncExecutionProvider._execute_task
  dsimp only
  split <;> rfl

/-- The trace of the DataSync create is either empty or the start call
followed by the wait call. -/
theorem dsCreate_trace (env : DataSyncEnv) (p : DataSyncProps) :
    (DataSyncExecutionProvider.create env p).2 = [] ∨
    (DataSyncExecutionProvider.create env p).2 =
      [ ExtCall.startTaskExecution p.task_arn
      , ExtCall.waitTaskExecution (env.startExecutionArn p.task_arn) create_waiter_config ] := by
  unfold DataSyncExecutionProvider.create
  dsimp only
  split
  · left; rfl
  · right
    split <;> rename_i r c heq <;>
      (have h := dsExecuteTask_trace env p.task_arn (p.task_name.getD "datasync-task") "CREATE";
       rw [heq] at h; exact h)

/-- The DataSync create trace never performs a DNS update request. -/
theorem dsCreate_no_dnsCall (env : DataSyncEnv) (p : DataSyncProps) (h ip : String) :
    ExtCall.dnsUpdateRequest h ip ∉ (DataSyncExecutionProvider.create env p).2 := by
  rcases dsCreate_trace env p with ht | ht <;> rw [ht] <;> simp

/-- The _get_public_ip trace never performs a DNS update request. -/
theorem getPublicIp_no_dnsCall (env : EcsEnv) (cl sv h ip : String) :
    ExtCall.dnsUpdateRequest h ip ∉ (EcsServiceManagerProvider._get_public_ip env cl sv).2 := by
  intro hmem
  unfold EcsServiceManagerProvider._get_public_ip at hmem
  dsimp only at hmem
  repeat' split at hmem
  all_goals simp_all

/-- The ECS service manager create trace never performs a DNS update
request. -/
theorem ecsCreate_no_dnsCall (env : EcsEnv) (cl sv h ip : String) :
    ExtCall.dnsUpdateRequest h ip ∉ (EcsServiceManagerProvider.create env cl sv).2 := by
  intro hmem
  unfold EcsServiceManagerProvider.create at hmem
  dsimp only at hmem
  split at hmem
  · simp at hmem
  · split at hmem <;> rename_i r c heq <;>
      (simp only [List.mem_append, List.mem_cons, List.not_mem_nil] at hmem;
       have hpub := getPublicIp_no_dnsCall env cl sv h ip;
       rw [heq] at hpub;
       simp_all)

/-- The trace of _update_dns is exactly one request to the DNS endpoint. -/
theorem updateDns_trace (env : DdnsEnv) (hostname ip : String) (u p : Option String) :
    (DynamicDnsProvider._update_dns env hostname ip u p).2 =
      [ExtCall.dnsUpdateRequest hostname ip] := by
  unfold DynamicDnsProvider._update_dns
  dsimp only
  split
  · rfl
  · split <;> rfl

/-- The trace of the DNS create is exactly one request to the DNS
endpoint. -/
theorem ddnsCreate_trace (env : DdnsEnv) (p : DdnsProps) :
    (DynamicDnsProvider.create env p).2 = [ExtCall.dnsUpdateRequest p.hostname p.ip_address] := by
  have h := updateDns_trace env p.hostname p.ip_address p.username p.password
  unfold DynamicDnsProvider.create
  split <;> rename_i r c heq <;> (rw [heq] at h; exact h)

/-! Claim theorems. -/

/-- C1: the claim fails on the code.  For every deprovision run, the delete
operation of the Task Execution provider on the efs-to-s3 job, with the
props actually wired by the orchestrator (full_args of
DataSyncExecution.__init__ never records a run_on_delete key), makes no
external call at all: the backup transfer is skipped, not executed.
Moreover main.py passes run_on_create and run_on_delete keywords that
DataSyncExecution.__init__ does not accept, which raises TypeError. -/
theorem claim_C1_backup_skipped_on_deprovision (env : DataSyncEnv) (id_ taskArn : String) :
    DataSyncExecutionProvider.delete env id_ (efsToS3Props taskArn) = (Except.ok (), [])
    ∧ callHasUnexpectedKeyword DataSyncExecution.init_params mainEfsToS3Keywords = true := by
  exact ⟨rfl, by decide⟩

/-- C2: the claim fails on the code.  The declared dependency graph has no
path between the ECS service manager resource and the efs-to-s3 execution
resource in either direction, so a destroy order that deletes the backup
execution before the service manager stops the service satisfies every
declared dependency: the graph does not enforce stop before backup. -/
theorem claim_C2_graph_admits_backup_before_stop :
    destroyOrderValidB backupFirstDestroyOrder = true
    ∧ idxIn backupFirstDestroyOrder Res.efsToS3ExecutionRes <
        idxIn backupFirstDestroyOrder Res.ecsServiceManagerRes
    ∧ reachable Res.ecsServiceManagerRes Res.efsToS3ExecutionRes = false
    ∧ reachable Res.efsToS3ExecutionRes Res.ecsServiceManagerRes = false := by
  decide

/-- C4: invoking the Task Execution provider with the direction flag false
for that direction makes no external call and returns a skipped result
(create) or returns immediately (delete); with the flag true it starts a
new execution, shown by the start call in the trace. -/
theorem claim_C4_direction_flags (env : DataSyncEnv) (id_ : String) (props : DataSyncProps) :
    (props.run_on_create = some false →
      DataSyncExecutionProvider.create env props =
        (Except.ok
          { id_ := props.task_name.getD "datasync-task" ++ "-skipped"
            outs := { task_execution_arn := none
                      task_arn := props.task_arn
                      status := "SKIPPED" } }, []))
    ∧ (props.run_on_delete = some false →
        DataSyncExecutionProvider.delete env id_ props = (Except.ok (), []))
    ∧ (props.run_on_create = some true →
        (DataSyncExecutionProvider.create env props).2 =
          [ ExtCall.startTaskExecution props.task_arn
          , ExtCall.waitTaskExecution (env.startExecutionArn props.task_arn) create_waiter_config ])
    ∧ (props.run_on_delete = some true →
        (DataSyncExecutionProvider.delete env id_ props).2 =
          [ ExtCall.startTaskExecution props.task_arn
          , ExtCall.waitTaskExecution (env.startExecutionArn props.task_arn) create_waiter_config ]) := by
  refine ⟨fun h => ?_, fun h => ?_, fun h => ?_, fun h => ?_⟩
  · unfold DataSyncExecutionProvider.create
    rw [h]
    rfl
  · unfold DataSyncExecutionProvider.delete
    rw [h]
    rfl
  · unfold DataSyncExecutionProvider.create
    dsimp only
    have hg : props.run_on_create.getD true = true := by rw [h]; rfl
    rw [hg, if_neg (by decide : ¬((true : Bool) = false))]
    split <;> rename_i r c heq <;>
      (have ht := dsExecuteTask_trace env props.task_arn (props.task_name.getD "datasync-task") "CREATE";
       rw [heq] at ht; exact ht)
  · unfold DataSyncExecutionProvider.delete
    dsimp only
    have hg : props.run_on_delete.getD false = true := by rw [h]; rfl
    rw [hg, if_neg (by decide : ¬((true : Bool) = false))]
    split <;> rename_i r c heq <;>
      (have ht := dsExecuteTask_trace env props.task_arn (props.task_name.getD "datasync-task") "DELETE";
       rw [heq] at ht; exact ht)

/-- Witness for C4 at concrete props and environment. -/
theorem claim_C4_direction_flags_witness :
    (DataSyncExecutionProvider.create dsEnvW propsFlagsFalse =
      (Except.ok
        { id_ := "job-skipped"
          outs := { task_execution_arn := none, task_arn := "arn-a", status := "SKIPPED" } }, []))
    ∧ DataSyncExecutionProvider.delete dsEnvW "id-1" propsFlagsFalse = (Except.ok (), [])
    ∧ (DataSyncExecutionProvider.create dsEnvW propsFlagsTrue).2 =
        [ ExtCall.startTaskExecution "arn-a"
        , ExtCall.waitTaskExecution "arn-a-execution-0" create_waiter_config ]
    ∧ (DataSyncExecutionProvider.delete dsEnvW "id-1" propsFlagsTrue).2 =
        [ ExtCall.startTaskExecution "arn-a"
        , ExtCall.waitTaskExecution "arn-a-execution-0" create_waiter_config ] :=
  ⟨(claim_C4_direction_flags dsEnvW "id-1" propsFlagsFalse).1 rfl,
   (claim_C4_direction_flags dsEnvW "id-1" propsFlagsFalse).2.1 rfl,
   (claim_C4_direction_flags dsEnvW "id-1" propsFlagsTrue).2.2.1 rfl,
   (claim_C4_direction_flags dsEnvW "id-1" propsFlagsTrue).2.2.2 rfl⟩

/-- C6: every transfer execution wait uses the terminal-status
configuration success SUCCESS, failures ERROR and CANCELED, polling delay
30 seconds and at most 60 attempts, and the provider performs the start
call and obtains the execution arn before the wait call. -/
theorem claim_C6_waiter_config_and_order (env : DataSyncEnv)
    (task_arn task_name operation : String) :
    create_waiter_config.successStatuses = ["SUCCESS"]
    ∧ create_waiter_config.failureStatuses = ["ERROR", "CANCELED"]
    ∧ create_waiter_config.delay = 30
    ∧ create_waiter_config.maxAttempts = 60
    ∧ (DataSyncExecutionProvider._execute_task env task_arn task_name operation).2 =
        [ ExtCall.startTaskExecution task_arn
        , ExtCall.waitTaskExecution (env.startExecutionArn task_arn) create_waiter_config ] :=
  ⟨by decide, by decide, rfl, rfl, dsExecuteTask_trace env task_arn task_name operation⟩

/-- C9: the delete operation of the DNS provider performs no external call
and leaves the DNS record state unchanged, still pointing at the last
applied address. -/
theorem claim_C9_dns_delete_noop (id_ : String) (props : DdnsProps)
    (st : List (String × String)) :
    DynamicDnsProvider.delete id_ props = ((), [])
    ∧ applyDnsCalls st (DynamicDnsProvider.delete id_ props).2 = st :=
  ⟨rfl, rfl⟩

/-- C3: in a full provision run, every DNS update request carries exactly
the public IP returned by the service-start step of that same run. -/
theorem claim_C3_dns_ip_matches_service_start (env : ProvisionEnv) (h ip : String)
    (hmem : ExtCall.dnsUpdateRequest h ip ∈ (provisionRun env).2) :
    ∃ r, (EcsServiceManagerProvider.create env.ecsEnv env.clusterName env.serviceName).1
           = Except.ok r
         ∧ r.outs.public_ip = ip := by
  have hds := dsCreate_no_dnsCall env.dsEnv (s3ToEfsProps env.s3ToEfsTaskArn) h ip
  have hecs := ecsCreate_no_dnsCall env.ecsEnv env.clusterName env.serviceName h ip
  unfold provisionRun at hmem
  dsimp only at hmem
  split at hmem
  · rename_i e c1 heq1
    rw [heq1] at hds
    exact absurd hmem hds
  · rename_i a c1 heq1
    rw [heq1] at hds
    split at hmem
    · rename_i e c2 heq2
      rw [heq2] at hecs
      rcases List.mem_append.mp hmem with hm | hm
      · exact absurd hm hds
      · exact absurd hm hecs
    · rename_i r c2 heq2
      rw [heq2] at hecs
      have ht := ddnsCreate_trace env.ddnsEnv
        { hostname := programHostname env
          ip_address := r.outs.public_ip
          username := env.noipUsername
          password := env.noipPassword }
      dsimp only at ht
      split at hmem
      · rename_i e c3 heq3
        rw [heq3] at ht
        dsimp only at ht
        rcases List.mem_append.mp hmem with hm | hm
        · rcases List.mem_append.mp hm with hm1 | hm1
          · exact absurd hm1 hds
          · exact absurd hm1 hecs
        · rw [ht] at hm
          simp only [List.mem_singleton, ExtCall.dnsUpdateRequest.injEq] at hm
          exact ⟨r, by rw [heq2], hm.2.symm⟩
      · rename_i cr c3 heq3
        rw [heq3] at ht
        dsimp only at ht
        rcases List.mem_append.mp hmem with hm | hm
        · rcases List.mem_append.mp hm with hm1 | hm1
          · exact absurd hm1 hds
          · exact absurd hm1 hecs
        · rw [ht] at hm
          simp only [List.mem_singleton, ExtCall.dnsUpdateRequest.injEq] at hm
          exact ⟨r, by rw [heq2], hm.2.symm⟩

/-- Witness for C3 on a provision run where every step succeeds. -/
theorem claim_C3_dns_ip_matches_service_start_witness :
    ∃ r, (EcsServiceManagerProvider.create provEnvW.ecsEnv provEnvW.clusterName
            provEnvW.serviceName).1 = Except.ok r
         ∧ r.outs.public_ip = "203.0.113.7" :=
  claim_C3_dns_ip_matches_service_start provEnvW "example.ddns.net" "203.0.113.7" (by decide)

/-- C5: service start sets the desired count to 1, waits for stability with
delay 10 and maxAttempts 60, on success returns the public IP of the
running instance, and fails fatally when zero running instances are found
after stability, when the instance has no network attachment, when no
network interface id can be resolved, or when the interface has no public
address association. -/
theorem claim_C5_service_start_contract (env : EcsEnv) (cl sv : String) :
    ((EcsServiceManagerProvider.create env cl sv).2.take 2 =
        [ExtCall.updateService cl sv 1, ExtCall.waitServicesStable cl sv 10 60])
    ∧ (env.serviceStabilizes = true → env.taskArns = [] →
        (EcsServiceManagerProvider.create env cl sv).1 =
          Except.error ("ECS service start failed: " ++
            ("No running tasks found for service " ++ sv)))
    ∧ (∀ t ts, env.serviceStabilizes = true → env.taskArns ≠ [] → env.tasks = t :: ts →
        t.attachments = [] →
        (EcsServiceManagerProvider.create env cl sv).1 =
          Except.error ("ECS service start failed: " ++
            "No network attachments found on task"))
    ∧ (∀ t ts a rest, env.serviceStabilizes = true → env.taskArns ≠ [] →
        env.tasks = t :: ts → t.attachments = a :: rest →
        (findEniId a.details = none ∨ findEniId a.details = some "") →
        (EcsServiceManagerProvider.create env cl sv).1 =
          Except.error ("ECS service start failed: " ++
            "Could not find network interface ID in task details"))
    ∧ (∀ t ts a rest eid, env.serviceStabilizes = true → env.taskArns ≠ [] →
        env.tasks = t :: ts → t.attachments = a :: rest →
        findEniId a.details = some eid → eid ≠ "" →
        (env.associationAttribute eid = none ∨
          ∃ assoc, env.associationAttribute eid = some assoc ∧
            assoc.lookup "PublicIp" = none) →
        (EcsServiceManagerProvider.create env cl sv).1 =
          Except.error ("ECS service start failed: " ++
            ("No public IP associated with ENI " ++ eid)))
    ∧ (∀ t ts a rest eid assoc ip, env.serviceStabilizes = true → env.taskArns ≠ [] →
        env.tasks = t :: ts → t.attachments = a :: rest →
        findEniId a.details = some eid → eid ≠ "" →
        env.associationAttribute eid = some assoc → assoc.lookup "PublicIp" = some ip →
        (EcsServiceManagerProvider.create env cl sv).1 =
          Except.ok
            { id_ := cl ++ "/" ++ sv
              outs := { cluster_name := cl, service_name := sv, public_ip := ip
                        desired_count := 1, status := "RUNNING" } }) := by
  refine ⟨?_, ?_, ?_, ?_, ?_, ?_⟩
  · unfold EcsServiceManagerProvider.create
    dsimp only
    split
    · rfl
    · split <;> rfl
  · intro hstab harns
    simp [EcsServiceManagerProvider.create, EcsServiceManagerProvider._get_public_ip,
      hstab, harns]
  · intro t ts hstab hne htasks hatt
    cases harns : env.taskArns with
    | nil => exact absurd harns hne
    | cons x xs =>
      simp [EcsServiceManagerProvider.create, EcsServiceManagerProvider._get_public_ip,
        hstab, harns, htasks, hatt]
  · intro t ts a rest hstab hne htasks hatt heni
    cases harns : env.taskArns with
    | nil => exact absurd harns hne
    | cons x xs =>
      rcases heni with heni | heni <;>
        simp [EcsServiceManagerProvider.create, EcsServiceManagerProvider._get_public_ip,
          hstab, harns, htasks, hatt, heni]
  · intro t ts a rest eid hstab hne htasks hatt heni hnee hassoc
    cases harns : env.taskArns with
    | nil => exact absurd harns hne
    | cons x xs =>
      rcases hassoc with hassoc | ⟨assoc, hassoc, hlook⟩
      · simp [EcsServiceManagerProvider.create, EcsServiceManagerProvider._get_public_ip,
          hstab, harns, htasks, hatt, heni, hnee, hassoc]
      · simp [EcsServiceManagerProvider.create, EcsServiceManagerProvider._get_public_ip,
          hstab, harns, htasks, hatt, heni, hnee, hassoc, hlook]
  · intro t ts a rest eid assoc ip hstab hne htasks hatt heni hnee hassoc hip
    cases harns : env.taskArns with
    | nil => exact absurd harns hne
    | cons x xs =>
      simp [EcsServiceManagerProvider.create, EcsServiceManagerProvider._get_public_ip,
        hstab, harns, htasks, hatt, heni, hnee, hassoc, hip]

/-- Witness for C5 covering each fatal condition and the success path. -/
theorem claim_C5_service_start_contract_witness :
    (EcsServiceManagerProvider.create ecsEnvNoTasks "cluster" "svc").1 =
      Except.error ("ECS service start failed: " ++
        ("No running tasks found for service " ++ "svc"))
    ∧ (EcsServiceManagerProvider.create ecsEnvNoAttach "cluster" "svc").1 =
        Except.error ("ECS service start failed: " ++
          "No network attachments found on task")
    ∧ (EcsServiceManagerProvider.create ecsEnvNoEni "cluster" "svc").1 =
        Except.error ("ECS service start failed: " ++
          "Could not find network interface ID in task details")
    ∧ (EcsServiceManagerProvider.create ecsEnvNoAssoc "cluster" "svc").1 =
        Except.error ("ECS service start failed: " ++
          ("No public IP associated with ENI " ++ "eni-1"))
    ∧ (EcsServiceManagerProvider.create ecsEnvW "cluster" "svc").1 =
        Except.ok
          { id_ := "cluster" ++ "/" ++ "svc"
            outs := { cluster_name := "cluster", service_name := "svc"
                      public_ip := "203.0.113.7", desired_count := 1
                      status := "RUNNING" } } :=
  ⟨(claim_C5_service_start_contract ecsEnvNoTasks "cluster" "svc").2.1 rfl rfl,
   (claim_C5_service_start_contract ecsEnvNoAttach "cluster" "svc").2.2.1
     { attachments := [] } [] rfl (by decide) rfl rfl,
   (claim_C5_service_start_contract ecsEnvNoEni "cluster" "svc").2.2.2.1
     { attachments := [ { details := [ { name := "subnetId", value := some "subnet-1" } ] } ] }
     [] { details := [ { name := "subnetId", value := some "subnet-1" } ] } []
     rfl (by decide) rfl rfl (Or.inl rfl),
   (claim_C5_service_start_contract ecsEnvNoAssoc "cluster" "svc").2.2.2.2.1
     taskW [] { details := [ { name := "networkInterfaceId", value := some "eni-1" } ] } []
     "eni-1" rfl (by decide) rfl rfl rfl (by decide) (Or.inl rfl),
   (claim_C5_service_start_contract ecsEnvW "cluster" "svc").2.2.2.2.2
     taskW [] { details := [ { name := "networkInterfaceId", value := some "eni-1" } ] } []
     "eni-1" [("PublicIp", "203.0.113.7")] "203.0.113.7"
     rfl (by decide) rfl rfl rfl (by decide) rfl rfl⟩

/-- C7 counterexample: a response whose text carries a leading space is
classified as success by the code although the response text does not start
with good or nochg, because the code classifies the stripped text. -/
theorem claim_C7_counterexample_padded_response :
    (DynamicDnsProvider._update_dns ddnsEnvPadded "example.ddns.net" "198.51.100.1"
        none none).1 = Except.ok "good 203.0.113.7"
    ∧ pyStartswith (ddnsEnvPadded.response "example.ddns.net" "198.51.100.1").text "good"
        = false
    ∧ pyStartswith (ddnsEnvPadded.response "example.ddns.net" "198.51.100.1").text "nochg"
        = false :=
  ⟨rfl, rfl, rfl⟩

/-- C7 amended: for every DNS update request answered with a non-error HTTP
status, the provider returns success if and only if the whitespace-stripped
response text starts with good or nochg; for any other stripped text it
returns a fatal error carrying the stripped response code. -/
theorem claim_C7_amended_response_classification (env : DdnsEnv) (hostname ip : String)
    (u p : Option String)
    (hstatus : ¬(400 ≤ (env.response hostname ip).statusCode ∧
                 (env.response hostname ip).statusCode < 600)) :
    ((∃ r, (DynamicDnsProvider._update_dns env hostname ip u p).1 = Except.ok r) ↔
      (pyStartswith (pyStrip (env.response hostname ip).text) "good" = true ∨
       pyStartswith (pyStrip (env.response hostname ip).text) "nochg" = true))
    ∧ ((pyStartswith (pyStrip (env.response hostname ip).text) "good" = false ∧
        pyStartswith (pyStrip (env.response hostname ip).text) "nochg" = false) →
        (DynamicDnsProvider._update_dns env hostname ip u p).1 =
          Except.error ("DDNS update failed: " ++ pyStrip (env.response hostname ip).text)) := by
  unfold DynamicDnsProvider._update_dns
  dsimp only
  rw [if_neg hstatus]
  by_cases hg : pyStartswith (pyStrip (env.response hostname ip).text) "good" = true <;>
    by_cases hn : pyStartswith (pyStrip (env.response hostname ip).text) "nochg" = true <;>
      simp [hg, hn]

/-- Witness for C7 amended on a well-formed good response. -/
theorem claim_C7_amended_response_classification_witness :
    ∃ r, (DynamicDnsProvider._update_dns ddnsEnvGood "example.ddns.net" "203.0.113.7"
            none none).1 = Except.ok r :=
  (claim_C7_amended_response_classification ddnsEnvGood "example.ddns.net" "203.0.113.7"
      none none (by decide)).1.mpr (Or.inl (by decide))

/-- Props used by the C8 witness. -/
def pW : DdnsProps :=
  { hostname := "example.ddns.net", ip_address := "203.0.113.7"
    username := none, password := none }

/-- The first update result in the C8 witness scenario. -/
def u1W : DdnsUpdateResult :=
  { outs := { hostname := "example.ddns.net", ip_address := "203.0.113.7"
              result := "good 203.0.113.7", status := "SUCCESS" } }

/-- C8: the update operation short-circuits with a nochg result and no
external call when the requested ip equals the last applied one, so two
consecutive updates with the same hostname and ip perform exactly one
external call in total. -/
theorem claim_C8_update_idempotent (env : DdnsEnv) (id1 id2 : String)
    (old_props : DdnsOldProps) (p : DdnsProps) :
    (old_props.ip_address = some p.ip_address →
      DynamicDnsProvider.update env id1 old_props p =
        (Except.ok
          { outs := { hostname := p.hostname, ip_address := p.ip_address
                      result := "nochg (no update needed)", status := "SUCCESS" } }, []))
    ∧ (∀ u1 c1, old_props.ip_address ≠ some p.ip_address →
        DynamicDnsProvider.update env id1 old_props p = (Except.ok u1, c1) →
        c1 = [ExtCall.dnsUpdateRequest p.hostname p.ip_address]
        ∧ DynamicDnsProvider.update env id2 { ip_address := some u1.outs.ip_address } p =
            (Except.ok
              { outs := { hostname := p.hostname, ip_address := p.ip_address
                          result := "nochg (no update needed)", status := "SUCCESS" } },
             [])) := by
  constructor
  · intro h
    unfold DynamicDnsProvider.update
    dsimp only
    rw [h]
    simp
  · intro u1 c1 hne hupd
    unfold DynamicDnsProvider.update at hupd
    dsimp only at hupd
    rw [if_pos hne] at hupd
    have htr := updateDns_trace env p.hostname p.ip_address p.username p.password
    split at hupd
    · rename_i result calls heq
      rw [heq] at htr
      simp only [Prod.mk.injEq, Except.ok.injEq] at hupd
      obtain ⟨hu, hc⟩ := hupd
      constructor
      · rw [← hc]
        exact htr
      · rw [← hu]
        unfold DynamicDnsProvider.update
        simp
    · rename_i e calls heq
      exact absurd hupd (by simp)

/-- Witness for C8: an update from no previous ip followed by an update
with the identical ip makes one external call then short-circuits. -/
theorem claim_C8_update_idempotent_witness :
    ([ExtCall.dnsUpdateRequest "example.ddns.net" "203.0.113.7"] : List ExtCall) =
      [ExtCall.dnsUpdateRequest pW.hostname pW.ip_address]
    ∧ DynamicDnsProvider.update ddnsEnvGood "id-2"
        { ip_address := some u1W.outs.ip_address } pW =
        (Except.ok
          { outs := { hostname := pW.hostname, ip_address := pW.ip_address
                      result := "nochg (no update needed)", status := "SUCCESS" } }, []) :=
  (claim_C8_update_idempotent ddnsEnvGood "id-1" "id-2" { ip_address := none } pW).2
    u1W [ExtCall.dnsUpdateRequest "example.ddns.net" "203.0.113.7"] (by decide) rfl

/-- C10: with more than one running instance, no error is raised: the
returned endpoint is the public IP of the first task in the list returned
by the running-instance query, using its first network attachment. -/
theorem claim_C10_multiple_instances_first_task (env : EcsEnv) (cl sv : String)
    (t : EcsTask) (ts : List EcsTask) (a : TaskAttachment) (rest : List TaskAttachment)
    (eid : String) (assoc : List (String × String)) (ip : String)
    (hstab : env.serviceStabilizes = true)
    (hmany : 2 ≤ env.taskArns.length)
    (htasks : env.tasks = t :: ts)
    (hatt : t.attachments = a :: rest)
    (heni : findEniId a.details = some eid)
    (hne : eid ≠ "")
    (hassoc : env.associationAttribute eid = some assoc)
    (hip : assoc.lookup "PublicIp" = some ip) :
    (EcsServiceManagerProvider.create env cl sv).1 =
      Except.ok
        { id_ := cl ++ "/" ++ sv
          outs := { cluster_name := cl, service_name := sv, public_ip := ip
                    desired_count := 1, status := "RUNNING" } } := by
  cases harns : env.taskArns with
  | nil => rw [harns] at hmany; simp at hmany
  | cons x xs =>
    simp [EcsServiceManagerProvider.create, EcsServiceManagerProvider._get_public_ip,
      hstab, harns, htasks, hatt, heni, hne, hassoc, hip]

/-- Witness for C10 on a world with two running tasks. -/
theorem claim_C10_multiple_instances_first_task_witness :
    (EcsServiceManagerProvider.create ecsEnvTwoTasks "cluster" "svc").1 =
      Except.ok
        { id_ := "cluster" ++ "/" ++ "svc"
          outs := { cluster_name := "cluster", service_name := "svc"
                    public_ip := "203.0.113.7", desired_count := 1
                    status := "RUNNING" } } :=
  claim_C10_multiple_instances_first_task ecsEnvTwoTasks "cluster" "svc"
    taskW [taskW] { details := [ { name := "networkInterfaceId", value := some "eni-1" } ] } []
    "eni-1" [("PublicIp", "203.0.113.7")] "203.0.113.7"
    rfl (by decide) rfl rfl rfl (by decide) rfl rfl

end Tetracubed
